import Mathlib

/-!
Shallow embedding of the Sentra crop-health scoring engine
(`model/utils/disease_classifier.py` and `model/utils/health_scorer.py`,
with constants from `model/config.py`), together with theorems checking
the specification's claims against it.

Numeric values are modelled as rationals; all arithmetic performed by the
code on these inputs (sums, means, linear penalties) is exact, so `ℚ`
mirrors the Python floats faithfully on the inputs the claims mention.
-/

namespace Sentra

/-- `DiseaseType` enum from `disease_classifier.py`. -/
inductive DiseaseType where
  | fungal
  | bacterial
  | viral
  | pest
  | nutritional
  | environmental
deriving DecidableEq, Repr

/-- The `.value` string of each `DiseaseType` member. -/
def DiseaseType.value : DiseaseType → String
  | .fungal => "fungal"
  | .bacterial => "bacterial"
  | .viral => "viral"
  | .pest => "pest"
  | .nutritional => "nutritional"
  | .environmental => "environmental"

/-- `SeverityLevel` enum from `disease_classifier.py`. -/
inductive SeverityLevel where
  | low
  | medium
  | high
  | critical
deriving DecidableEq, Repr

/-- The `.value` string of each `SeverityLevel` member. -/
def SeverityLevel.value : SeverityLevel → String
  | .low => "low"
  | .medium => "medium"
  | .high => "high"
  | .critical => "critical"

/-- The `DiseaseInfo` dataclass from `disease_classifier.py`. -/
structure DiseaseInfo where
  name : String
  type : DiseaseType
  severity : SeverityLevel
  impact_score : ℚ
  spreading_rate : String
  treatment_priority : ℕ
deriving DecidableEq, Repr

/-- `_get_default_classes`: the default consolidated class list used when no
`data.yaml` is present (this repository ships none). -/
def default_classes : List String :=
  ["healthy", "blight", "leaf_spot", "rust", "mildew", "virus_disease",
   "anthracnose", "rot_disease", "scab", "pest_damage", "bacterial_disease"]

/-- The `consolidated_disease_info` literal inside `_build_disease_database`,
as an association list from class name to its metadata fields
(type, severity, impact_score, priority, spreading_rate). -/
def consolidated_disease_info :
    List (String × DiseaseType × SeverityLevel × ℚ × ℕ × String) :=
  [("healthy", .environmental, .low, 0, 1, "none"),
   ("blight", .fungal, .high, 85, 5, "fast"),
   ("leaf_spot", .fungal, .medium, 60, 3, "medium"),
   ("rust", .fungal, .medium, 65, 3, "medium"),
   ("mildew", .fungal, .medium, 55, 3, "medium"),
   ("virus_disease", .viral, .high, 80, 4, "fast"),
   ("anthracnose", .fungal, .medium, 65, 3, "medium"),
   ("rot_disease", .fungal, .high, 75, 4, "medium"),
   ("scab", .fungal, .medium, 50, 2, "slow"),
   ("pest_damage", .pest, .medium, 55, 3, "medium"),
   ("bacterial_disease", .bacterial, .high, 70, 4, "fast")]

/-- Python's `keyword in disease_lower` substring test, on strings as
character lists. -/
def substring_in (needle hay : String) : Bool :=
  decide (needle.toList <:+: hay.toList)

/-- `_classify_unknown_disease`: heuristic record for a class name with no
entry in `consolidated_disease_info`.  A name containing one of the
high-severity keywords gets a critical record, everything else a
medium default. -/
def classify_unknown_disease (disease_name : String) : DiseaseInfo :=
  let disease_lower := disease_name.toLower
  if ["critical", "severe", "wilt", "death", "dead"].any
      (fun keyword => substring_in keyword disease_lower) then
    { name := disease_name, type := .fungal, severity := .critical,
      impact_score := 90, spreading_rate := "fast", treatment_priority := 5 }
  else
    { name := disease_name, type := .fungal, severity := .medium,
      impact_score := 50, spreading_rate := "medium", treatment_priority := 2 }

/-- `_build_disease_database`: for every class name, take its
`consolidated_disease_info` entry when present, otherwise the heuristic
record; the result is the lookup table keyed by class name. -/
def disease_db : List (String × DiseaseInfo) :=
  default_classes.map (fun disease_name =>
    match consolidated_disease_info.lookup disease_name with
    | some (t, sev, impact, prio, rate) =>
        (disease_name,
         { name := disease_name, type := t, severity := sev,
           impact_score := impact, spreading_rate := rate,
           treatment_priority := prio })
    | none => (disease_name, classify_unknown_disease disease_name))

/-- `get_disease_info`: `self.disease_db.get(disease_name)` — a plain
dictionary lookup with no normalization, alias map or fuzzy matching. -/
def get_disease_info (disease_name : String) : Option DiseaseInfo :=
  disease_db.lookup disease_name

/-- The dict returned by `classify_detection`.  The unmatched branch of the
Python code omits the `spreading_rate` key, hence the `Option`. -/
structure Classification where
  class_name : String
  type : String
  severity : String
  impact_score : ℚ
  confidence : ℚ
  treatment_priority : ℕ
  spreading_rate : Option String
  weighted_impact : ℚ
deriving DecidableEq, Repr

/-- `classify_detection`: join the label against the table; on a miss return
the hard-coded default dict (type `"unknown"`, severity `"unknown"`,
impact 50, priority 2, no spreading rate), otherwise copy the record's
fields and weight the impact by the confidence. -/
def classify_detection (class_name : String) (confidence : ℚ) : Classification :=
  match get_disease_info class_name with
  | none =>
      { class_name := class_name, type := "unknown", severity := "unknown",
        impact_score := 50, confidence := confidence,
        treatment_priority := 2, spreading_rate := none,
        weighted_impact := 50 * confidence }
  | some disease_info =>
      { class_name := class_name,
        type := disease_info.type.value,
        severity := disease_info.severity.value,
        impact_score := disease_info.impact_score,
        confidence := confidence,
        treatment_priority := disease_info.treatment_priority,
        spreading_rate := some disease_info.spreading_rate,
        weighted_impact := disease_info.impact_score * confidence }

/-- `get_treatment_recommendations`: a miss on the table yields the single
consult-expert line; otherwise the block for the record's type (empty for
types other than fungal/bacterial/viral/pest), with the URGENT line
inserted at the front when severity is high or critical. -/
def get_treatment_recommendations (disease_name : String) : List String :=
  match get_disease_info disease_name with
  | none => ["Consult agricultural expert for proper diagnosis"]
  | some disease_info =>
      let recommendations : List String :=
        if disease_info.type = DiseaseType.fungal then
          ["Apply appropriate fungicide treatment",
           "Improve air circulation around plants",
           "Avoid overhead watering"]
        else if disease_info.type = DiseaseType.bacterial then
          ["Remove and destroy infected plant material",
           "Apply copper-based bactericide if available",
           "Avoid working with wet plants"]
        else if disease_info.type = DiseaseType.viral then
          ["Remove infected plants to prevent spread",
           "Control insect vectors",
           "Use virus-free planting material"]
        else if disease_info.type = DiseaseType.pest then
          ["Apply appropriate insecticide or miticide",
           "Use biological control methods if available",
           "Monitor pest population regularly"]
        else []
      if disease_info.severity = SeverityLevel.high ∨
          disease_info.severity = SeverityLevel.critical then
        "URGENT: Take immediate action" :: recommendations
      else
        recommendations

/-! ## Health scorer (`health_scorer.py`) -/

/-- The `DetectionResult` dataclass. -/
structure DetectionResult where
  class_name : String
  confidence : ℚ
  bbox : ℚ × ℚ × ℚ × ℚ
  area : ℚ := 0
deriving DecidableEq, Repr

/-- The `SensorData` dataclass: four independently optional fields. -/
structure SensorData where
  temperature : Option ℚ := none
  humidity : Option ℚ := none
  soil_moisture : Option ℚ := none
  ph : Option ℚ := none
deriving DecidableEq, Repr

/-- `OPTIMAL_RANGES` from `config.py`, in its dict order. -/
def OPTIMAL_RANGES : List (String × (ℚ × ℚ)) :=
  [("temperature", (18, 30)),
   ("humidity", (40, 70)),
   ("soil_moisture", (30, 70)),
   ("ph", (6, 15/2))]

/-- `getattr(sensor_data, param, None)` for the four sensor fields. -/
def SensorData.get (s : SensorData) (param : String) : Option ℚ :=
  if param = "temperature" then s.temperature
  else if param = "humidity" then s.humidity
  else if param = "soil_moisture" then s.soil_moisture
  else if param = "ph" then s.ph
  else none

/-- The dict returned by `_analyze_detections`.  Each classified detection
carries the `area` the loop writes into it, paired alongside. -/
structure DiseaseAnalysis where
  classified_detections : List (Classification × ℚ)
  total_impact : ℚ
  max_priority : ℕ
  affected_area : ℚ
  detection_count : ℕ
deriving DecidableEq, Repr

/-- `_analyze_detections`: classify every detection, accumulating the sum of
weighted impacts, the running max of treatment priorities (from 0), the
total area and the count. -/
def analyze_detections (detections : List DetectionResult) : DiseaseAnalysis :=
  let classified := detections.map (fun d =>
    (classify_detection d.class_name d.confidence, d.area))
  { classified_detections := classified
    total_impact := (classified.map (fun p => p.1.weighted_impact)).sum
    max_priority := (classified.map (fun p => p.1.treatment_priority)).foldl max 0
    affected_area := (detections.map (fun d => d.area)).sum
    detection_count := detections.length }

/-- `_calculate_disease_score`: 100 on zero detections, else
`max(0, 100 − mean weighted impact − min(30, area×100) − maxPriority×5)`. -/
def calculate_disease_score (disease_analysis : DiseaseAnalysis) : ℚ :=
  if disease_analysis.detection_count = 0 then 100
  else
    let base_impact := disease_analysis.total_impact / disease_analysis.detection_count
    let area_penalty := min 30 (disease_analysis.affected_area * 100)
    let priority_penalty : ℚ := (disease_analysis.max_priority : ℚ) * 5
    let total_penalty := base_impact + area_penalty + priority_penalty
    max 0 (100 - total_penalty)

/-- `_score_parameter`: 100 inside the optimal range, else a linear penalty
of 100 per full range-width of deviation, floored at 0. -/
def score_parameter (value : ℚ) (optimal_range : ℚ × ℚ) : ℚ :=
  let min_val := optimal_range.1
  let max_val := optimal_range.2
  let range_size := max_val - min_val
  if min_val ≤ value ∧ value ≤ max_val then 100
  else if value < min_val then
    max 0 (100 - (min_val - value) / range_size * 100)
  else
    max 0 (100 - (value - max_val) / range_size * 100)

/-- The per-parameter scores collected by `_calculate_environmental_score`
for the fields present in the reading, in `OPTIMAL_RANGES` order. -/
def present_scores (sensor_data : SensorData) : List ℚ :=
  OPTIMAL_RANGES.filterMap (fun pr =>
    (sensor_data.get pr.1).map (fun value => score_parameter value pr.2))

/-- `_calculate_environmental_score`: 75 with no reading; otherwise the mean
of the scores of the present parameters, or 75 when none are present. -/
def calculate_environmental_score (sensor_data : Option SensorData) : ℚ :=
  match sensor_data with
  | none => 75
  | some s =>
      let scores := present_scores s
      if scores ≠ [] then scores.sum / scores.length else 75

/-- `_determine_risk_level`: threshold the health score, then upgrade one
tier (low→medium, medium→high) when the max treatment priority is ≥ 4. -/
def determine_risk_level (health_score : ℚ) (disease_analysis : DiseaseAnalysis) :
    String :=
  let risk :=
    if health_score ≥ 80 then "low"
    else if health_score ≥ 60 then "medium"
    else if health_score ≥ 30 then "high"
    else "critical"
  if disease_analysis.max_priority ≥ 4 then
    if risk = "low" then "medium"
    else if risk = "medium" then "high"
    else risk
  else risk

/-- `sum(1 for param in [...] if getattr(sensor_data, param) is not None)`. -/
def count_available_sensors (s : SensorData) : ℕ :=
  (["temperature", "humidity", "soil_moisture", "ph"].filter
    (fun param => (s.get param).isSome)).length

/-- `_calculate_confidence`: the mean of a detection factor (mean detection
confidence × 100, or 90 with no detections) and a sensor factor
(available sensors / 4 × 100, or 50 with no reading). -/
def calculate_confidence (detections : List DetectionResult)
    (sensor_data : Option SensorData) : ℚ :=
  let detection_factor : ℚ :=
    if detections ≠ [] then
      ((detections.map (fun d => d.confidence)).sum / detections.length) * 100
    else 90
  let sensor_factor : ℚ :=
    match sensor_data with
    | some s => ((count_available_sensors s : ℚ) / 4) * 100
    | none => 50
  (detection_factor + sensor_factor) / 2

/-- The `seen`-set deduplication loop at the end of
`_generate_recommendations`: keep the first occurrence of each string. -/
def unique_recs (seen : List String) : List String → List String
  | [] => []
  | rec :: recs =>
      if rec ∈ seen then unique_recs seen recs
      else rec :: unique_recs (rec :: seen) recs

/-- `_get_environmental_recommendations`: one directive per out-of-range
present parameter, for temperature, humidity and soil moisture (pH has
none). -/
def get_environmental_recommendations (sensor_data : SensorData) : List String :=
  (match sensor_data.temperature with
   | some t =>
       if t < 18 then ["Provide protection from cold temperatures"]
       else if t > 30 then ["Provide shade or cooling measures"]
       else []
   | none => []) ++
  (match sensor_data.humidity with
   | some h =>
       if h < 40 then ["Increase humidity around plants"]
       else if h > 70 then ["Improve ventilation to reduce humidity"]
       else []
   | none => []) ++
  (match sensor_data.soil_moisture with
   | some m =>
       if m < 30 then ["Increase watering frequency"]
       else if m > 70 then ["Reduce watering to prevent root rot"]
       else []
   | none => [])

/-- `_generate_recommendations`: up to 2 treatment lines for each of the
first 3 classified detections, then environmental lines when a reading is
present, then the follow-up line when the max priority is ≥ 3;
deduplicated preserving first occurrence and truncated to 8. -/
def generate_recommendations (disease_analysis : DiseaseAnalysis)
    (sensor_data : Option SensorData) : List String :=
  let recommendations :=
    (disease_analysis.classified_detections.take 3).flatMap (fun detection =>
      (get_treatment_recommendations detection.1.class_name).take 2)
  let recommendations :=
    recommendations ++
      (match sensor_data with
       | some s => get_environmental_recommendations s
       | none => [])
  let recommendations :=
    if disease_analysis.max_priority ≥ 3 then
      recommendations ++ ["Schedule follow-up inspection within 3-5 days"]
    else recommendations
  (unique_recs [] recommendations).take 8

/-- The `HealthAssessment` dataclass (numeric and list fields the claims
mention; `sensor_analysis` is independent of the scoring arithmetic). -/
structure HealthAssessment where
  overall_health : ℚ
  disease_score : ℚ
  environmental_score : ℚ
  risk_level : String
  confidence : ℚ
  recommendations : List String
  detected_issues : List (Classification × ℚ)
deriving DecidableEq, Repr

/-- `calculate_health_score`: the orchestrator — disease score and
environmental score blended 70/30 into the overall health, plus risk
level, confidence and recommendations. -/
def calculate_health_score (detections : List DetectionResult)
    (sensor_data : Option SensorData) : HealthAssessment :=
  let disease_analysis := analyze_detections detections
  let disease_score := calculate_disease_score disease_analysis
  let env_score := calculate_environmental_score sensor_data
  let overall_health := disease_score * (7/10) + env_score * (3/10)
  { overall_health := overall_health
    disease_score := disease_score
    environmental_score := env_score
    risk_level := determine_risk_level overall_health disease_analysis
    confidence := calculate_confidence detections sensor_data
    recommendations := generate_recommendations disease_analysis sensor_data
    detected_issues := disease_analysis.classified_detections }

/-! ## Specification-side definitions

These follow the spec's words, to be compared with the code-side
definitions above. -/

/-- Arithmetic mean of a list of rationals. -/
def mean (l : List ℚ) : ℚ := l.sum / l.length

/-- The spec's fixed severity thresholds: impact ≥90→critical, ≥75→high,
≥50→medium, else low. -/
def severity_tier_of (impact : ℚ) : SeverityLevel :=
  if impact ≥ 90 then .critical
  else if impact ≥ 75 then .high
  else if impact ≥ 50 then .medium
  else .low

/-- Distance of a value from the optimal range `[mn, mx]`
(`|value − nearest bound|`, zero inside the range). -/
def dist_from_range (value mn mx : ℚ) : ℚ :=
  if value < mn then mn - value
  else if value > mx then value - mx
  else 0

/-- The spec's risk thresholds on the overall health score. -/
def base_risk (health : ℚ) : String :=
  if health ≥ 80 then "low"
  else if health ≥ 60 then "medium"
  else if health ≥ 30 then "high"
  else "critical"

/-- The spec's one-tier escalation: low→medium, medium→high, others
unchanged. -/
def escalate_risk (risk : String) : String :=
  if risk = "low" then "medium"
  else if risk = "medium" then "high"
  else risk

/-- The spec's per-type treatment template blocks (empty for types outside
the four named mechanisms). -/
def type_block : DiseaseType → List String
  | .fungal =>
      ["Apply appropriate fungicide treatment",
       "Improve air circulation around plants",
       "Avoid overhead watering"]
  | .bacterial =>
      ["Remove and destroy infected plant material",
       "Apply copper-based bactericide if available",
       "Avoid working with wet plants"]
  | .viral =>
      ["Remove infected plants to prevent spread",
       "Control insect vectors",
       "Use virus-free planting material"]
  | .pest =>
      ["Apply appropriate insecticide or miticide",
       "Use biological control methods if available",
       "Monitor pest population regularly"]
  | _ => []

/-! Concrete sample inputs used by witnesses. -/

/-- A detection labeled `healthy` with full confidence and zero area. -/
def det_healthy : DetectionResult :=
  { class_name := "healthy", confidence := 1, bbox := (0, 0, 0, 0), area := 0 }

/-- A detection labeled `blight` with confidence 0.9 and area 0.05. -/
def det_blight : DetectionResult :=
  { class_name := "blight", confidence := 9/10, bbox := (0, 0, 0, 0), area := 1/20 }

/-- A sensor reading with all four fields present, temperature far above
the optimal range. -/
def sample_sensor : SensorData :=
  { temperature := some 45, humidity := some 55,
    soil_moisture := some 50, ph := some (13/2) }

/-- The table record for `blight`. -/
def blight_info : DiseaseInfo :=
  { name := "blight", type := .fungal, severity := .high,
    impact_score := 85, spreading_rate := "fast", treatment_priority := 5 }

/-! ## Helper lemmas -/

/-- A successful association-list lookup returns the value of some stored
pair. -/
theorem lookup_exists_key {α β : Type} [BEq α] {l : List (α × β)} {k : α} {v : β}
    (h : l.lookup k = some v) : ∃ k', (k', v) ∈ l := by
  induction l with
  | nil => simp [List.lookup] at h
  | cons p l ih =>
      rw [List.lookup] at h
      by_cases hk : k == p.1
      · refine ⟨p.1, ?_⟩
        simp [hk] at h
        simp [← h]
      · simp [hk] at h
        obtain ⟨k', hk'⟩ := ih h
        exact ⟨k', List.mem_cons_of_mem _ hk'⟩

/-- Every record in the disease table has a nonnegative impact score and a
treatment priority of at least 1. -/
theorem disease_db_entry_bounds :
    ∀ p ∈ disease_db, 0 ≤ p.2.impact_score ∧ 1 ≤ p.2.treatment_priority := by
  decide

/-- A classification's weighted impact is nonnegative for a nonnegative
confidence, and its treatment priority is at least 1. -/
theorem classify_detection_bounds (class_name : String) (confidence : ℚ)
    (hc : 0 ≤ confidence) :
    0 ≤ (classify_detection class_name confidence).weighted_impact ∧
      1 ≤ (classify_detection class_name confidence).treatment_priority := by
  unfold classify_detection
  cases hlk : get_disease_info class_name with
  | none =>
      constructor
      · positivity
      · norm_num
  | some disease_info =>
      obtain ⟨k', hmem⟩ := lookup_exists_key hlk
      have hb := disease_db_entry_bounds _ hmem
      exact ⟨mul_nonneg hb.1 hc, hb.2⟩

/-- `c ≤ foldl max a l` iff `c ≤ a` or some element of `l` is at least
`c`. -/
theorem le_foldl_max (c : ℕ) : ∀ (l : List ℕ) (a : ℕ),
    c ≤ l.foldl max a ↔ c ≤ a ∨ l.any (fun x => c ≤ x) = true := by
  intro l
  induction l with
  | nil => simp
  | cons x l ih =>
      intro a
      rw [List.foldl_cons, ih, List.any_cons]
      simp [le_max_iff]
      tauto

/-- Every string kept by the dedup loop comes from the input and was not
seen before. -/
theorem mem_unique_recs {x : String} :
    ∀ (seen l : List String), x ∈ unique_recs seen l → x ∈ l ∧ x ∉ seen := by
  intro seen l
  induction l generalizing seen with
  | nil => simp [unique_recs]
  | cons r l ih =>
      intro hx
      rw [unique_recs] at hx
      by_cases hr : r ∈ seen
      · rw [if_pos hr] at hx
        have := ih seen hx
        exact ⟨List.mem_cons_of_mem _ this.1, this.2⟩
      · rw [if_neg hr] at hx
        rcases List.mem_cons.1 hx with hx | hx
        · exact ⟨by simp [hx], by simpa [hx] using hr⟩
        · have := ih (r :: seen) hx
          refine ⟨List.mem_cons_of_mem _ this.1, fun hc => this.2 ?_⟩
          exact List.mem_cons_of_mem _ hc

/-- The dedup loop produces a list without duplicates. -/
theorem unique_recs_nodup : ∀ (seen l : List String), (unique_recs seen l).Nodup := by
  intro seen l
  induction l generalizing seen with
  | nil => simp [unique_recs]
  | cons r l ih =>
      rw [unique_recs]
      by_cases hr : r ∈ seen
      · rw [if_pos hr]; exact ih seen
      · rw [if_neg hr]
        refine List.nodup_cons.2 ⟨fun hc => ?_, ih (r :: seen)⟩
        exact (mem_unique_recs _ _ hc).2 (List.mem_cons_self r seen)

/-- The dedup loop returns a subsequence of its input. -/
theorem unique_recs_sublist : ∀ (seen l : List String),
    List.Sublist (unique_recs seen l) l := by
  intro seen l
  induction l generalizing seen with
  | nil => simp [unique_recs]
  | cons r l ih =>
      rw [unique_recs]
      by_cases hr : r ∈ seen
      · rw [if_pos hr]; exact List.Sublist.cons r (ih seen)
      · rw [if_neg hr]; exact List.Sublist.cons₂ r (ih (r :: seen))

/-! ## Claim C1 -/

/-- C1 counterexample: the `bacterial_disease` entry has impact score 70,
which the spec's thresholds map to `medium`, yet its stored severity tier
is `high`; so the claimed tier/impact invariant fails on this entry. -/
theorem C1_counterexample :
    get_disease_info "bacterial_disease" =
      some { name := "bacterial_disease", type := .bacterial, severity := .high,
             impact_score := 70, spreading_rate := "fast",
             treatment_priority := 4 } ∧
    severity_tier_of 70 = SeverityLevel.medium ∧
    SeverityLevel.high ≠ SeverityLevel.medium := by
  refine ⟨by decide, by decide, by decide⟩

/-- C1 (amended): every entry of the Disease Classification Table except
`bacterial_disease` has a severity tier consistent with its impact score
under the fixed thresholds (≥90→critical, ≥75→high, ≥50→medium, else
low); `bacterial_disease` (impact 70, tier high) is the sole
exception. -/
theorem C1_tier_consistency :
    ∀ p ∈ disease_db, p.1 ≠ "bacterial_disease" →
      p.2.severity = severity_tier_of p.2.impact_score := by
  decide

/-- C1 witness: the `blight` entry instantiates the amended invariant. -/
theorem C1_tier_consistency_witness :
    (("blight", blight_info) ∈ disease_db ∧
      ("blight" : String) ≠ "bacterial_disease") ∧
    SeverityLevel.high = severity_tier_of 85 :=
  ⟨⟨by decide, by decide⟩,
   C1_tier_consistency ("blight", blight_info) (by decide) (by decide)⟩

/-! ## Claim C2 -/

/-- C2 counterexample: `"tomato bacterial leaf spot"` is not a table key,
and the lookup resolves it to the default record (type `"unknown"`,
impact 50) rather than to any bacterial-spot record; indeed no
`"bacterial spot"` key exists in the table at all. -/
theorem C2_counterexample :
    get_disease_info "tomato bacterial leaf spot" = none ∧
    (classify_detection "tomato bacterial leaf spot" 1).type = "unknown" ∧
    (classify_detection "tomato bacterial leaf spot" 1).impact_score = 50 ∧
    disease_db.lookup "bacterial spot" = none := by
  refine ⟨by decide, by decide, by decide, by decide⟩

/-- C2 (amended): lookup is exact-key only — there is no alias map and no
fuzzy matching; every label that is not an exact table key resolves
directly to the default record. -/
theorem C2_exact_lookup_only (label : String) (confidence : ℚ)
    (h : get_disease_info label = none) :
    classify_detection label confidence =
      { class_name := label, type := "unknown", severity := "unknown",
        impact_score := 50, confidence := confidence, treatment_priority := 2,
        spreading_rate := none, weighted_impact := 50 * confidence } := by
  unfold classify_detection
  rw [h]

/-- C2 witness: the amended lookup behavior at
`"tomato bacterial leaf spot"`. -/
theorem C2_exact_lookup_only_witness :
    get_disease_info "tomato bacterial leaf spot" = none ∧
    classify_detection "tomato bacterial leaf spot" 1 =
      { class_name := "tomato bacterial leaf spot", type := "unknown",
        severity := "unknown", impact_score := 50, confidence := 1,
        treatment_priority := 2, spreading_rate := none,
        weighted_impact := 50 * 1 } :=
  ⟨by decide, C2_exact_lookup_only "tomato bacterial leaf spot" 1 (by decide)⟩

/-! ## Claim C3 -/

/-- C3 counterexample: on an unmatched label the default classification's
severity is the string `"unknown"`, not `"medium"`, and it carries no
spread-rate field at all (rather than `"medium"`); the numeric parts of
the claim do hold (weighted impact 30 at confidence 0.6). -/
theorem C3_counterexample :
    (classify_detection "xyz_unrecognized_tag" (3/5)).severity ≠ "medium" ∧
    (classify_detection "xyz_unrecognized_tag" (3/5)).severity = "unknown" ∧
    (classify_detection "xyz_unrecognized_tag" (3/5)).spreading_rate = none ∧
    (classify_detection "xyz_unrecognized_tag" (3/5)).weighted_impact = 30 := by
  have h : get_disease_info "xyz_unrecognized_tag" = none := by decide
  refine ⟨?_, ?_, ?_, ?_⟩ <;> simp [classify_detection, h]
  norm_num

/-- C3 (amended): classification is total (never raises); an unmatched
label yields the default record with type `"unknown"`, severity
`"unknown"` (not medium), impact score 50, treatment priority 2, no
spread-rate field, and weighted impact 50 × confidence. -/
theorem C3_default_record (label : String) (confidence : ℚ)
    (h : get_disease_info label = none) :
    (classify_detection label confidence).type = "unknown" ∧
    (classify_detection label confidence).severity = "unknown" ∧
    (classify_detection label confidence).impact_score = 50 ∧
    (classify_detection label confidence).treatment_priority = 2 ∧
    (classify_detection label confidence).spreading_rate = none ∧
    (classify_detection label confidence).weighted_impact = 50 * confidence := by
  unfold classify_detection
  rw [h]
  exact ⟨rfl, rfl, rfl, rfl, rfl, rfl⟩

/-- C3 witness: the default record at `"xyz_unrecognized_tag"` with
confidence 0.6 has weighted impact 30. -/
theorem C3_default_record_witness :
    get_disease_info "xyz_unrecognized_tag" = none ∧
    ((classify_detection "xyz_unrecognized_tag" (3/5)).type = "unknown" ∧
     (classify_detection "xyz_unrecognized_tag" (3/5)).severity = "unknown" ∧
     (classify_detection "xyz_unrecognized_tag" (3/5)).impact_score = 50 ∧
     (classify_detection "xyz_unrecognized_tag" (3/5)).treatment_priority = 2 ∧
     (classify_detection "xyz_unrecognized_tag" (3/5)).spreading_rate = none ∧
     (classify_detection "xyz_unrecognized_tag" (3/5)).weighted_impact = 30) :=
  ⟨by decide, by
    have h := C3_default_record "xyz_unrecognized_tag" (3/5) (by decide)
    refine ⟨h.1, h.2.1, h.2.2.1, h.2.2.2.1, h.2.2.2.2.1, ?_⟩
    rw [h.2.2.2.2.2]
    norm_num⟩

/-! ## Claim C8 -/

/-- C8 counterexample: `healthy` is a table entry whose type
(environmental) is outside the four template mechanisms, and its
recommendation block is empty — not the single consult-expert line the
claim assigns to "any other type". -/
theorem C8_counterexample :
    (get_disease_info "healthy").map DiseaseInfo.type =
      some DiseaseType.environmental ∧
    get_treatment_recommendations "healthy" = [] ∧
    get_treatment_recommendations "healthy" ≠
      ["Consult agricultural expert for proper diagnosis"] := by
  refine ⟨by decide, by decide, by decide⟩

/-- C8 (amended): a label with no table record yields only the
consult-expert line; a label with a record yields the type's template
block (fungal/bacterial/viral/pest, empty for any other type) with the
URGENT line prepended — possibly consuming one of the 2 slots taken
later — exactly when the record's severity tier is high or critical. -/
theorem C8_treatment_template (disease_name : String) :
    (get_disease_info disease_name = none →
      get_treatment_recommendations disease_name =
        ["Consult agricultural expert for proper diagnosis"]) ∧
    (∀ info, get_disease_info disease_name = some info →
      get_treatment_recommendations disease_name =
        (if info.severity = SeverityLevel.high ∨
            info.severity = SeverityLevel.critical
         then ["URGENT: Take immediate action"] else []) ++
          type_block info.type) := by
  constructor
  · intro h
    unfold get_treatment_recommendations
    rw [h]
  · intro info h
    unfold get_treatment_recommendations
    rw [h]
    obtain ⟨nm, ty, sev, imp, rate, prio⟩ := info
    cases ty <;> cases sev <;> simp [type_block]

/-- C8 witness: `blight` (fungal, high severity) yields the URGENT line
followed by the fungal block. -/
theorem C8_treatment_template_witness :
    get_disease_info "blight" = some blight_info ∧
    get_treatment_recommendations "blight" =
      ["URGENT: Take immediate action",
       "Apply appropriate fungicide treatment",
       "Improve air circulation around plants",
       "Avoid overhead watering"] :=
  ⟨by decide, by
    simpa [blight_info, type_block] using
      (C8_treatment_template "blight").2 blight_info (by decide)⟩

/-! ## Claim C4 -/

/-- C4: the disease score is 100 on an empty detection sequence, and
otherwise `max(0, 100 − mean weighted impact − min(30, totalArea×100) −
5 × max treatment priority)`. -/
theorem C4_disease_score (detections : List DetectionResult) :
    (detections = [] →
      calculate_disease_score (analyze_detections detections) = 100) ∧
    (detections ≠ [] →
      calculate_disease_score (analyze_detections detections) =
        max 0 (100 -
          mean (detections.map (fun d =>
            (classify_detection d.class_name d.confidence).weighted_impact)) -
          min 30 ((detections.map (fun d => d.area)).sum * 100) -
          5 * ((((detections.map (fun d =>
            (classify_detection d.class_name d.confidence).treatment_priority)).foldl
              max 0 : ℕ) : ℚ)))) := by
  constructor
  · intro h
    subst h
    rfl
  · intro h
    have hlen : detections.length ≠ 0 := by
      simpa [List.length_eq_zero] using h
    simp only [calculate_disease_score, analyze_detections, List.map_map,
      Function.comp_def, mean, List.length_map]
    rw [if_neg hlen]
    congr 1
    ring

/-- C4 witness: both branches instantiated — the empty sequence scores
100, and the single-blight sequence scores per the penalty formula. -/
theorem C4_disease_score_witness :
    (([] : List DetectionResult) = [] ∧
      calculate_disease_score (analyze_detections []) = 100) ∧
    ([det_blight] ≠ ([] : List DetectionResult) ∧
      calculate_disease_score (analyze_detections [det_blight]) =
        max 0 (100 -
          mean ([det_blight].map (fun d =>
            (classify_detection d.class_name d.confidence).weighted_impact)) -
          min 30 (([det_blight].map (fun d => d.area)).sum * 100) -
          5 * (((([det_blight].map (fun d =>
            (classify_detection d.class_name d.confidence).treatment_priority)).foldl
              max 0 : ℕ) : ℚ)))) :=
  ⟨⟨rfl, (C4_disease_score []).1 rfl⟩,
   ⟨by decide, (C4_disease_score [det_blight]).2 (by decide)⟩⟩

/-! ## Claim C5 -/

/-- Closed form of the per-parameter score: a linear penalty on the
distance from the optimal range, floored at 0. -/
theorem score_parameter_closed_form (mn mx v : ℚ) (hr : mn < mx) :
    score_parameter v (mn, mx) =
      max 0 (100 - 100 * dist_from_range v mn mx / (mx - mn)) := by
  have hr0 : mx - mn ≠ 0 := sub_ne_zero.2 hr.ne'
  unfold score_parameter dist_from_range
  by_cases h1 : mn ≤ v ∧ v ≤ mx
  · rw [if_pos h1, if_neg (not_lt.2 h1.1), if_neg (not_lt.2 h1.2)]
    norm_num
  · rw [if_neg h1]
    rcases not_and_or.1 h1 with h2 | h2
    · have hlt : v < mn := not_le.1 h2
      rw [if_pos hlt, if_pos hlt]
      congr 1
      ring
    · have hgt : v > mx := not_le.1 h2
      have hnlt : ¬ v < mn := by linarith
      rw [if_neg hnlt, if_neg hnlt, if_pos hgt]
      congr 1
      ring

/-- C5: the per-parameter score is 100 on the whole optimal range
(including both bounds), follows the linear deviation penalty outside it,
is 0 one full range-width below the range, and is monotonically
non-increasing in the distance from the range; the aggregate score is
the mean of the present parameters' scores, and 75 with no reading. -/
theorem C5_parameter_scoring (mn mx v w v1 v2 : ℚ) (s : SensorData)
    (hr : mn < mx) (hv1 : mn ≤ v) (hv2 : v ≤ mx)
    (hd : dist_from_range v1 mn mx ≤ dist_from_range v2 mn mx)
    (hs : present_scores s ≠ []) :
    score_parameter v (mn, mx) = 100 ∧
    score_parameter mn (mn, mx) = 100 ∧
    score_parameter mx (mn, mx) = 100 ∧
    score_parameter w (mn, mx) =
      max 0 (100 - 100 * dist_from_range w mn mx / (mx - mn)) ∧
    score_parameter (mn - (mx - mn)) (mn, mx) = 0 ∧
    score_parameter v2 (mn, mx) ≤ score_parameter v1 (mn, mx) ∧
    calculate_environmental_score none = 75 ∧
    calculate_environmental_score (some s) = mean (present_scores s) := by
  have hr0 : mx - mn ≠ 0 := sub_ne_zero.2 hr.ne'
  have hrpos : 0 < mx - mn := by linarith
  have hin : ∀ u, mn ≤ u → u ≤ mx → score_parameter u (mn, mx) = 100 := by
    intro u h1 h2
    unfold score_parameter
    rw [if_pos ⟨h1, h2⟩]
  refine ⟨hin v hv1 hv2, hin mn le_rfl hr.le, hin mx hr.le le_rfl,
    score_parameter_closed_form mn mx w hr, ?_, ?_, rfl, ?_⟩
  · rw [score_parameter_closed_form _ _ _ hr]
    have hlt : mn - (mx - mn) < mn := by linarith
    unfold dist_from_range
    rw [if_pos hlt]
    have : mn - (mn - (mx - mn)) = mx - mn := by ring
    rw [this, mul_div_assoc, div_self hr0]
    norm_num
  · rw [score_parameter_closed_form _ _ _ hr, score_parameter_closed_form _ _ _ hr]
    refine max_le_max le_rfl ?_
    have hmul : 100 * dist_from_range v1 mn mx * (mx - mn)⁻¹ ≤
        100 * dist_from_range v2 mn mx * (mx - mn)⁻¹ :=
      mul_le_mul_of_nonneg_right (by linarith) (inv_nonneg.2 hrpos.le)
    rw [mul_div_assoc, mul_div_assoc, div_eq_mul_inv, div_eq_mul_inv]
    have h1 := hmul
    rw [mul_assoc, mul_assoc] at h1
    linarith
  · simp only [calculate_environmental_score, mean]
    rw [if_pos hs]

/-- C5 witness: the temperature range 18–30 with sample values, and the
four-field sample reading. -/
theorem C5_parameter_scoring_witness :
    ((18 : ℚ) < 30 ∧ (18 : ℚ) ≤ 24 ∧ (24 : ℚ) ≤ 30 ∧
      dist_from_range 31 18 30 ≤ dist_from_range 33 18 30 ∧
      present_scores sample_sensor ≠ []) ∧
    (score_parameter 24 (18, 30) = 100 ∧
     score_parameter 18 (18, 30) = 100 ∧
     score_parameter 30 (18, 30) = 100 ∧
     score_parameter 45 (18, 30) =
       max 0 (100 - 100 * dist_from_range 45 18 30 / (30 - 18)) ∧
     score_parameter (18 - (30 - 18)) (18, 30) = 0 ∧
     score_parameter 33 (18, 30) ≤ score_parameter 31 (18, 30) ∧
     calculate_environmental_score none = 75 ∧
     calculate_environmental_score (some sample_sensor) =
       mean (present_scores sample_sensor)) :=
  ⟨⟨by norm_num, by norm_num, by norm_num,
    by unfold dist_from_range; norm_num,
    by decide⟩,
   C5_parameter_scoring 18 30 24 45 31 33 sample_sensor (by norm_num)
     (by norm_num) (by norm_num)
     (by unfold dist_from_range; norm_num) (by decide)⟩

/-! ## Claim C6 -/

/-- The max priority of an analysis reaches a positive bound iff some
detection's classification does. -/
theorem analyze_max_priority_ge (detections : List DetectionResult) (c : ℕ)
    (hc : c ≠ 0) :
    (c ≤ (analyze_detections detections).max_priority ↔
      detections.any (fun d =>
        c ≤ (classify_detection d.class_name d.confidence).treatment_priority)
        = true) := by
  simp only [analyze_detections, List.map_map, Function.comp_def]
  rw [le_foldl_max]
  simp [List.any_map, Nat.pos_of_ne_zero hc, Nat.not_le_of_lt (Nat.pos_of_ne_zero hc)]

/-- C6: the risk level equals the spec's threshold tiers on the overall
health when no classified detection has priority ≥ 4, and equals the
one-tier escalation of that base tier when one does; escalation sends
low to medium and medium to high and leaves high and critical
unchanged. -/
theorem C6_risk_level (health_score : ℚ) (detections : List DetectionResult) :
    (detections.any (fun d =>
        4 ≤ (classify_detection d.class_name d.confidence).treatment_priority)
        = true →
      determine_risk_level health_score (analyze_detections detections) =
        escalate_risk (base_risk health_score)) ∧
    (detections.any (fun d =>
        4 ≤ (classify_detection d.class_name d.confidence).treatment_priority)
        = false →
      determine_risk_level health_score (analyze_detections detections) =
        base_risk health_score) ∧
    escalate_risk "low" = "medium" ∧
    escalate_risk "medium" = "high" ∧
    escalate_risk "high" = "high" ∧
    escalate_risk "critical" = "critical" := by
  have hiff := analyze_max_priority_ge detections 4 (by norm_num)
  refine ⟨?_, ?_, rfl, rfl, rfl, rfl⟩
  · intro h
    have h4 : 4 ≤ (analyze_detections detections).max_priority := hiff.2 h
    simp only [determine_risk_level, base_risk, escalate_risk]
    rw [if_pos h4]
  · intro h
    have h4 : ¬ 4 ≤ (analyze_detections detections).max_priority := by
      rw [hiff, h]
      simp
    simp only [determine_risk_level, base_risk]
    rw [if_neg h4]

/-- C6 witness: with overall health 92.5 the base tier is low; the
single-blight detection set (priority 5) escalates it to medium, and the
single-healthy detection set (priority 1) leaves it low. -/
theorem C6_risk_level_witness :
    ([det_blight].any (fun d =>
        4 ≤ (classify_detection d.class_name d.confidence).treatment_priority)
        = true ∧
      determine_risk_level (92.5 : ℚ) (analyze_detections [det_blight]) =
        escalate_risk (base_risk 92.5)) ∧
    ([det_healthy].any (fun d =>
        4 ≤ (classify_detection d.class_name d.confidence).treatment_priority)
        = false ∧
      determine_risk_level (92.5 : ℚ) (analyze_detections [det_healthy]) =
        base_risk 92.5) :=
  ⟨⟨by decide, (C6_risk_level 92.5 [det_blight]).1 (by decide)⟩,
   ⟨by decide, (C6_risk_level 92.5 [det_healthy]).2.1 (by decide)⟩⟩

/-! ## Claim C7 -/

/-- C7: the recommendation list is exactly the first-seen-order
deduplication, truncated to 8, of: up to 2 treatment lines for each of
the first 3 classified detections in original order, then the
environmental lines (only with a sensor reading), then the follow-up
line exactly when some classified detection has priority ≥ 3; the result
is duplicate-free, at most 8 long, and a subsequence of the assembled
list (first-seen order preserved). -/
theorem C7_recommendations (detections : List DetectionResult)
    (sensor_data : Option SensorData) :
    generate_recommendations (analyze_detections detections) sensor_data =
      (unique_recs []
        ((((analyze_detections detections).classified_detections.take 3).flatMap
            (fun p => (get_treatment_recommendations p.1.class_name).take 2) ++
          (match sensor_data with
           | some s => get_environmental_recommendations s
           | none => []) ++
          (if detections.any (fun d =>
              3 ≤ (classify_detection d.class_name d.confidence).treatment_priority)
           then ["Schedule follow-up inspection within 3-5 days"]
           else [])))).take 8 ∧
    (generate_recommendations (analyze_detections detections) sensor_data).Nodup ∧
    (generate_recommendations (analyze_detections detections) sensor_data).length
      ≤ 8 ∧
    List.Sublist
      (generate_recommendations (analyze_detections detections) sensor_data)
      (((analyze_detections detections).classified_detections.take 3).flatMap
          (fun p => (get_treatment_recommendations p.1.class_name).take 2) ++
        (match sensor_data with
         | some s => get_environmental_recommendations s
         | none => []) ++
        (if detections.any (fun d =>
            3 ≤ (classify_detection d.class_name d.confidence).treatment_priority)
         then ["Schedule follow-up inspection within 3-5 days"]
         else [])) := by
  have hiff := analyze_max_priority_ge detections 3 (by norm_num)
  have hassemble :
      generate_recommendations (analyze_detections detections) sensor_data =
        (unique_recs []
          ((((analyze_detections detections).classified_detections.take 3).flatMap
              (fun p => (get_treatment_recommendations p.1.class_name).take 2) ++
            (match sensor_data with
             | some s => get_environmental_recommendations s
             | none => []) ++
            (if detections.any (fun d =>
                3 ≤ (classify_detection d.class_name d.confidence).treatment_priority)
             then ["Schedule follow-up inspection within 3-5 days"]
             else [])))).take 8 := by
    simp only [generate_recommendations, ge_iff_le]
    by_cases h3 : 3 ≤ (analyze_detections detections).max_priority
    · rw [if_pos h3, if_pos (hiff.1 h3)]
    · rw [if_neg h3, if_neg (fun hc => h3 (hiff.2 hc))]
      simp
  refine ⟨hassemble, ?_, ?_, ?_⟩
  · rw [hassemble]
    exact ((unique_recs_nodup _ _).sublist (List.take_sublist _ _))
  · rw [hassemble]
    exact List.length_take_le _ _
  · rw [hassemble]
    exact (List.take_sublist _ _).trans (unique_recs_sublist _ _)

/-! ## Claim C9 -/

/-- C9: with every detection confidence in [0,1], the assessment
confidence lies in [0,100] and is the mean of the detection signal
(mean confidence × 100, or 90 with no detections) and the sensor signal
(non-null fields / 4 × 100, or 50 with no reading); in the all-defaults
case it is 70, the overall health is 92.5, and the risk level low. -/
theorem C9_confidence (detections : List DetectionResult)
    (sensor_data : Option SensorData)
    (hconf : detections.all
      (fun d => decide (0 ≤ d.confidence ∧ d.confidence ≤ 1)) = true) :
    0 ≤ calculate_confidence detections sensor_data ∧
    calculate_confidence detections sensor_data ≤ 100 ∧
    calculate_confidence detections sensor_data =
      mean [(if detections ≠ [] then
               mean (detections.map (fun d => d.confidence)) * 100 else 90),
            (match sensor_data with
             | some s => ((count_available_sensors s : ℚ) / 4) * 100
             | none => 50)] ∧
    calculate_confidence [] none = 70 ∧
    (calculate_health_score [] none).overall_health = 92.5 ∧
    (calculate_health_score [] none).risk_level = "low" := by
  have hc : ∀ d ∈ detections, 0 ≤ d.confidence ∧ d.confidence ≤ 1 := by
    intro d hd
    simpa using (List.all_eq_true.1 hconf) d hd
  have hdf : 0 ≤ (if detections ≠ [] then
        ((detections.map (fun d => d.confidence)).sum / detections.length) * 100
      else 90) ∧
      (if detections ≠ [] then
        ((detections.map (fun d => d.confidence)).sum / detections.length) * 100
      else 90) ≤ 100 := by
    by_cases hne : detections = []
    · simp [hne]
      norm_num
    · rw [if_pos hne]
      have hlen : 0 < (detections.length : ℚ) := by
        exact_mod_cast List.length_pos.2 hne
      have hsum0 : 0 ≤ (detections.map (fun d => d.confidence)).sum := by
        refine List.sum_nonneg ?_
        intro x hx
        obtain ⟨d, hd, rfl⟩ := List.mem_map.1 hx
        exact (hc d hd).1
      have hsumle : (detections.map (fun d => d.confidence)).sum ≤
          (detections.length : ℚ) := by
        have h1 := List.sum_le_card_nsmul (detections.map (fun d => d.confidence)) 1
          (by intro x hx
              obtain ⟨d, hd, rfl⟩ := List.mem_map.1 hx
              exact (hc d hd).2)
        simpa [nsmul_eq_mul] using h1
      constructor
      · exact mul_nonneg (div_nonneg hsum0 hlen.le) (by norm_num)
      · have hdiv : (detections.map (fun d => d.confidence)).sum /
            (detections.length : ℚ) ≤ 1 := (div_le_one hlen).2 hsumle
        nlinarith
  have hsf : 0 ≤ (match sensor_data with
        | some s => ((count_available_sensors s : ℚ) / 4) * 100
        | none => (50 : ℚ)) ∧
      (match sensor_data with
        | some s => ((count_available_sensors s : ℚ) / 4) * 100
        | none => (50 : ℚ)) ≤ 100 := by
    cases sensor_data with
    | none => norm_num
    | some s =>
        have hk : count_available_sensors s ≤ 4 := by
          have h1 := List.length_filter_le (fun param => (s.get param).isSome)
            ["temperature", "humidity", "soil_moisture", "ph"]
          simpa [count_available_sensors] using h1
        have hkq : ((count_available_sensors s : ℚ)) ≤ 4 := by exact_mod_cast hk
        constructor
        · positivity
        · nlinarith
  refine ⟨?_, ?_, ?_, by norm_num [calculate_confidence], ?_, ?_⟩
  · simp only [calculate_confidence]
    linarith [hdf.1, hsf.1]
  · simp only [calculate_confidence]
    linarith [hdf.2, hsf.2]
  · simp only [calculate_confidence, mean]
    norm_num
  · norm_num [calculate_health_score, analyze_detections, calculate_disease_score,
      calculate_environmental_score]
  · have hoverall : (100 : ℚ) * (7/10) + 75 * (3/10) ≥ 80 := by norm_num
    simp only [calculate_health_score, analyze_detections, calculate_disease_score,
      calculate_environmental_score, determine_risk_level]
    norm_num

/-- C9 witness: the single-blight detection set with the four-field
sample reading satisfies the confidence bounds hypothesis. -/
theorem C9_confidence_witness :
    [det_blight].all (fun d => decide (0 ≤ d.confidence ∧ d.confidence ≤ 1))
      = true ∧
    (0 ≤ calculate_confidence [det_blight] (some sample_sensor) ∧
     calculate_confidence [det_blight] (some sample_sensor) ≤ 100 ∧
     calculate_confidence [det_blight] (some sample_sensor) =
       mean [(if [det_blight] ≠ [] then
                mean ([det_blight].map (fun d => d.confidence)) * 100 else 90),
             (match some sample_sensor with
              | some s => ((count_available_sensors s : ℚ) / 4) * 100
              | none => 50)] ∧
     calculate_confidence [] none = 70 ∧
     (calculate_health_score [] none).overall_health = 92.5 ∧
     (calculate_health_score [] none).risk_level = "low") :=
  ⟨by norm_num [det_blight], C9_confidence [det_blight] (some sample_sensor)
    (by norm_num [det_blight])⟩

/-! ## Claim C10 -/

/-- C10: any non-empty detection sequence with nonnegative confidences
and areas scores at most 95 — the priority penalty alone is at least 5 —
hence strictly below the zero-detection score of 100; a single fully
confident `healthy` detection scores exactly 95. -/
theorem C10_nonempty_below_100 (detections : List DetectionResult)
    (hne : detections ≠ [])
    (hok : detections.all (fun d => decide (0 ≤ d.confidence ∧ 0 ≤ d.area))
      = true) :
    calculate_disease_score (analyze_detections detections) ≤ 95 ∧
    calculate_disease_score (analyze_detections detections) < 100 ∧
    calculate_disease_score (analyze_detections [det_healthy]) = 95 := by
  have hc : ∀ d ∈ detections, 0 ≤ d.confidence ∧ 0 ≤ d.area := by
    intro d hd
    simpa using (List.all_eq_true.1 hok) d hd
  have hcount : (analyze_detections detections).detection_count ≠ 0 := by
    simpa [analyze_detections, List.length_eq_zero] using hne
  have hsumw : 0 ≤ (analyze_detections detections).total_impact := by
    simp only [analyze_detections, List.map_map, Function.comp_def]
    refine List.sum_nonneg ?_
    intro x hx
    obtain ⟨d, hd, rfl⟩ := List.mem_map.1 hx
    exact (classify_detection_bounds d.class_name d.confidence (hc d hd).1).1
  have harea : 0 ≤ (analyze_detections detections).affected_area := by
    simp only [analyze_detections]
    refine List.sum_nonneg ?_
    intro x hx
    obtain ⟨d, hd, rfl⟩ := List.mem_map.1 hx
    exact (hc d hd).2
  have hprio : 1 ≤ (analyze_detections detections).max_priority := by
    rw [analyze_max_priority_ge detections 1 (by norm_num)]
    obtain ⟨d, rest, rfl⟩ := List.exists_cons_of_ne_nil hne
    rw [List.any_cons]
    have := (classify_detection_bounds d.class_name d.confidence
      (hc d (List.mem_cons_self d rest)).1).2
    simp [this]
  have hprioq : (1 : ℚ) ≤ ((analyze_detections detections).max_priority : ℚ) := by
    exact_mod_cast hprio
  have hcountq : (0 : ℚ) < ((analyze_detections detections).detection_count : ℚ) := by
    exact_mod_cast Nat.pos_of_ne_zero hcount
  have hle : calculate_disease_score (analyze_detections detections) ≤ 95 := by
    unfold calculate_disease_score
    rw [if_neg hcount]
    refine max_le (by norm_num) ?_
    have hbase : 0 ≤ (analyze_detections detections).total_impact /
        ((analyze_detections detections).detection_count : ℚ) :=
      div_nonneg hsumw hcountq.le
    have hareap : (0 : ℚ) ≤
        min 30 ((analyze_detections detections).affected_area * 100) :=
      le_min (by norm_num) (by positivity)
    linarith
  have hhealthy : calculate_disease_score (analyze_detections [det_healthy]) = 95 := by
    have h1 : get_disease_info "healthy" =
        some { name := "healthy", type := .environmental, severity := .low,
               impact_score := 0, spreading_rate := "none",
               treatment_priority := 1 } := by decide
    have h2 : classify_detection "healthy" 1 =
        { class_name := "healthy", type := "environmental", severity := "low",
          impact_score := 0, confidence := 1, treatment_priority := 1,
          spreading_rate := some "none", weighted_impact := 0 * 1 } := by
      unfold classify_detection
      rw [h1]
      rfl
    simp only [calculate_disease_score, analyze_detections, det_healthy, h2]
    norm_num [h2]
  exact ⟨hle, lt_of_le_of_lt hle (by norm_num), hhealthy⟩

/-- C10 witness: the single-healthy detection sequence. -/
theorem C10_nonempty_below_100_witness :
    ([det_healthy] ≠ ([] : List DetectionResult) ∧
      [det_healthy].all (fun d => decide (0 ≤ d.confidence ∧ 0 ≤ d.area))
        = true) ∧
    (calculate_disease_score (analyze_detections [det_healthy]) ≤ 95 ∧
     calculate_disease_score (analyze_detections [det_healthy]) < 100 ∧
     calculate_disease_score (analyze_detections [det_healthy]) = 95) :=
  ⟨⟨by decide, by decide⟩,
   C10_nonempty_below_100 [det_healthy] (by decide) (by decide)⟩

end Sentra
